import Mathlib

/-!
Verification of the realtime-chat relay server (src/main.py).

The server keeps two module-level Python dicts,
`users_by_sid : sid -> uuid` and `users_by_uuid : uuid -> sid`, and three
socket event handlers (`register`, `message`, `disconnect`) that mutate and
consult them.  We embed the dicts as ordered association lists (insertion
keeps the position of an existing key, lookup returns the first binding,
exactly the observable behaviour of a Python dict with unique keys), the
handlers as pure functions from registry state and payload to the new state
plus the list of emitted events, and the CPython `uuid.UUID` string parser
as an executable function.
-/

set_option maxRecDepth 100000

namespace RealtimeChat

/-- A Python dict with string keys and string values, as an ordered
association list. -/
abbrev PyDict := List (String × String)

/-- Python `d.get(k)` / `d[k]`: first binding of `k`, if any. -/
def dictGet : PyDict → String → Option String
  | [], _ => none
  | (k2, v) :: rest, k => if k2 = k then some v else dictGet rest k

/-- Python `d[k] = v`: overwrite in place if `k` is present, else append. -/
def dictSet : PyDict → String → String → PyDict
  | [], k, v => [(k, v)]
  | (k2, v2) :: rest, k, v =>
      if k2 = k then (k, v) :: rest else (k2, v2) :: dictSet rest k v

/-- Python `d.pop(k, None)`, state part: remove the binding of `k` if present. -/
def dictPop : PyDict → String → PyDict
  | [], _ => []
  | (k2, v) :: rest, k =>
      if k2 = k then dictPop rest k else (k2, v) :: dictPop rest k

theorem dictGet_set (d : PyDict) (k v k2 : String) :
    dictGet (dictSet d k v) k2 = if k = k2 then some v else dictGet d k2 := by
  induction d with
  | nil => by_cases h : k = k2 <;> simp [dictSet, dictGet, h]
  | cons hd tl ih =>
      obtain ⟨k3, v3⟩ := hd
      by_cases h1 : k3 = k <;> by_cases h2 : k = k2 <;>
        simp_all [dictSet, dictGet] <;> by_cases h3 : k3 = k2 <;> simp_all

theorem dictGet_pop (d : PyDict) (k k2 : String) :
    dictGet (dictPop d k) k2 = if k2 = k then none else dictGet d k2 := by
  induction d with
  | nil => simp [dictPop, dictGet]
  | cons hd tl ih =>
      obtain ⟨k3, v3⟩ := hd
      by_cases h1 : k3 = k <;> by_cases h2 : k2 = k <;>
        simp_all [dictPop, dictGet] <;> by_cases h3 : k3 = k2 <;> simp_all

theorem dictPop_of_absent (d : PyDict) (k : String) (h : dictGet d k = none) :
    dictPop d k = d := by
  induction d with
  | nil => rfl
  | cons hd tl ih =>
      obtain ⟨k2, v⟩ := hd
      by_cases h1 : k2 = k <;> simp_all [dictPop, dictGet]

/-- The server state: the two module-level dicts of src/main.py. -/
structure Registry where
  users_by_sid : PyDict
  users_by_uuid : PyDict
deriving DecidableEq

/-- The empty initial state. -/
def Registry.empty : Registry := ⟨[], []⟩

/-- The two assignments performed by the `register` handler
(`users_by_sid[sid] = u; users_by_uuid[u] = sid`). -/
def registryRegister (st : Registry) (sid u : String) : Registry :=
  { users_by_sid := dictSet st.users_by_sid sid u
    users_by_uuid := dictSet st.users_by_uuid u sid }

/-- Lookup `users_by_sid.get(sid)`: which identity a connection holds. -/
def lookup_identity_of (st : Registry) (sid : String) : Option String :=
  dictGet st.users_by_sid sid

/-- Lookup `users_by_uuid.get(u)`: which connection holds an identity. -/
def lookup_connection_of (st : Registry) (u : String) : Option String :=
  dictGet st.users_by_uuid u

/-- The `disconnect` handler: `u = users_by_sid.pop(sid, None)` always runs;
`users_by_uuid.pop(u, None)` runs only when `u` is truthy (non-None and
non-empty, Python string truthiness). -/
def disconnect (st : Registry) (sid : String) : Registry :=
  let u? := dictGet st.users_by_sid sid
  let st1 : Registry := { st with users_by_sid := dictPop st.users_by_sid sid }
  match u? with
  | none => st1
  | some u =>
      if u = "" then st1
      else { st1 with users_by_uuid := dictPop st1.users_by_uuid u }

/-! ### JSON payload values and the CPython uuid.UUID parser -/

/-- A value carried in a socket.io JSON payload field. -/
inductive PVal where
  | vstr (s : String)
  | vnum (n : Int)
  | vbool (b : Bool)
  | vnull
deriving DecidableEq

/-- Python `str()` of a payload value, as used by f-string interpolation. -/
def pyStr : PVal → String
  | .vstr s => s
  | .vnum n => toString n
  | .vbool true => "True"
  | .vbool false => "False"
  | .vnull => "None"

def isPySpace (c : Char) : Bool :=
  c = ' ' ∨ c = '\t' ∨ c = '\n' ∨ c = '\x0b' ∨ c = '\x0c' ∨ c = '\r'

def isHexDigitChar (c : Char) : Bool :=
  ('0' ≤ c ∧ c ≤ '9') ∨ ('a' ≤ c ∧ c ≤ 'f') ∨ ('A' ≤ c ∧ c ≤ 'F')

def hexVal (c : Char) : Nat :=
  if '0' ≤ c ∧ c ≤ '9' then c.toNat - '0'.toNat
  else if 'a' ≤ c ∧ c ≤ 'f' then c.toNat - 'a'.toNat + 10
  else c.toNat - 'A'.toNat + 10

/-- Hex digits after the first one: single underscores allowed between
digits, not doubled, not trailing. -/
def hexDigitsRest : List Char → Nat → Option Nat
  | [], acc => some acc
  | '_' :: c :: rest, acc =>
      if isHexDigitChar c then hexDigitsRest rest (16 * acc + hexVal c) else none
  | ['_'], _ => none
  | c :: rest, acc =>
      if isHexDigitChar c then hexDigitsRest rest (16 * acc + hexVal c) else none

/-- A run of hex digits (no base prefix), possibly with internal
underscores; must be nonempty and start with a digit. -/
def pyIntHexDigits : List Char → Option Nat
  | [] => none
  | c :: rest => if isHexDigitChar c then hexDigitsRest rest (hexVal c) else none

/-- After an optional `0x`/`0X` prefix a single leading underscore is
allowed. -/
def pyIntHexAfterSign : List Char → Option Nat
  | '0' :: 'x' :: '_' :: rest => pyIntHexDigits rest
  | '0' :: 'x' :: rest => pyIntHexDigits rest
  | '0' :: 'X' :: '_' :: rest => pyIntHexDigits rest
  | '0' :: 'X' :: rest => pyIntHexDigits rest
  | l => pyIntHexDigits l

/-- Python `int(s, 16)` restricted to ASCII input: optional surrounding
whitespace, optional sign, optional `0x` prefix, hex digits with single
underscores between digits. -/
def pyIntHex (s : String) : Option Int :=
  let l := ((s.data.dropWhile isPySpace).reverse.dropWhile isPySpace).reverse
  match l with
  | '+' :: rest => (pyIntHexAfterSign rest).map (fun n => (n : Int))
  | '-' :: rest => (pyIntHexAfterSign rest).map (fun n => -(n : Int))
  | _ => (pyIntHexAfterSign l).map (fun n => (n : Int))

/-- The two curly-brace characters, U+007B and U+007D. -/
def isBrace (c : Char) : Bool := c.toNat = 123 ∨ c.toNat = 125

def isPrefixList : List Char → List Char → Bool
  | [], _ => true
  | _ :: _, [] => false
  | a :: as, b :: bs => a = b && isPrefixList as bs

/-- Python `s.replace(pat, "")` for a nonempty pattern: scan left to right,
on a match skip the pattern, else keep the character.  Fuelled by the
length of the list so the kernel can evaluate it. -/
def removeSubAux (pat : List Char) : Nat → List Char → List Char
  | _, [] => []
  | 0, l => l
  | fuel + 1, c :: rest =>
      if isPrefixList pat (c :: rest) then
        removeSubAux pat fuel ((c :: rest).drop pat.length)
      else c :: removeSubAux pat fuel rest

def removeSub (pat l : List Char) : List Char :=
  if pat.isEmpty then l else removeSubAux pat l.length l

/-- The normalisation CPython uuid.UUID applies to its `hex` argument:
remove every occurrence of `urn:` then of `uuid:`, strip `{`/`}` from both
ends, remove every `-`. -/
def uuidNormalize (s : String) : String :=
  let l1 := removeSub "uuid:".data (removeSub "urn:".data s.data)
  let l2 := ((l1.dropWhile isBrace).reverse.dropWhile isBrace).reverse
  String.mk (removeSub "-".data l2)

/-- CPython `uuid.UUID(hex=s)` for a string argument: normalise, require
exactly 32 characters, parse as base-16 int, require a 128-bit value.
Returns the 128-bit value on success, `none` where CPython raises
ValueError. -/
def uuidFromString (s : String) : Option Nat :=
  let h := uuidNormalize s
  if h.length ≠ 32 then none
  else match pyIntHex h with
    | none => none
    | some n => if 0 ≤ n ∧ n < 2 ^ 128 then some n.toNat else none

inductive PyExc where
  | valueError
  | typeError
  | attributeError
deriving DecidableEq

/-- CPython `uuid.UUID(u)` as called at src/main.py line 42, on each payload value
shape: strings go through the hex parser (failure raises ValueError); None
fails the argument-count check (TypeError); numbers and booleans fail the
`.replace` attribute lookup (AttributeError).  Only a string can parse
successfully. -/
def pyUUID : PVal → Except PyExc Nat
  | .vstr s =>
      match uuidFromString s with
      | some n => .ok n
      | none => .error .valueError
  | .vnull => .error .typeError
  | .vnum _ => .error .attributeError
  | .vbool _ => .error .attributeError

/-! ### Event handlers -/

/-- A JSON object payload, as an association list. -/
abbrev Payload := List (String × PVal)

def plookup : Payload → String → Option PVal
  | [], _ => none
  | (k2, v) :: rest, k => if k2 = k then some v else plookup rest k

/-- One `sio.emit(event, payload, to=dest)` call. -/
structure Emit where
  event : String
  payload : Payload
  dest : String
deriving DecidableEq

/-- Result of running one handler: the registry afterwards, the emits made
(in order), and the uncaught exception if the handler raised. -/
structure HResult where
  state : Registry
  emits : List Emit
  exc : Option PyExc
deriving DecidableEq

def errEmit (sid msg : String) : Emit :=
  ⟨"error", [("message", .vstr msg)], sid⟩

/-- The `register` event handler (src/main.py lines 34-49).  `not data`
catches a missing or empty payload; a present `uuid` key has its value run
through `uuid.UUID` inside `try/except (ValueError, TypeError)`; an
AttributeError (non-None, non-string value) escapes the handler.  On
success the raw supplied value is stored in both dicts and echoed back. -/
def register (st : Registry) (sid : String) (data : Option Payload) : HResult :=
  match data with
  | none => ⟨st, [errEmit sid "uuid is required"], none⟩
  | some d =>
      if d.isEmpty then ⟨st, [errEmit sid "uuid is required"], none⟩
      else match plookup d "uuid" with
        | none => ⟨st, [errEmit sid "uuid is required"], none⟩
        | some v =>
            match v, pyUUID v with
            | .vstr u, .ok _ =>
                ⟨registryRegister st sid u,
                 [⟨"registered", [("uuid", .vstr u)], sid⟩], none⟩
            | _, .error .attributeError => ⟨st, [], some .attributeError⟩
            | _, _ => ⟨st, [errEmit sid "Invalid uuid"], none⟩

/-- The `message` event handler (src/main.py lines 52-73).  Field check,
then sender lookup (`if not from_uuid` is Python truthiness: None or empty
string), then target lookup (`if not target_sid` likewise; a non-string
`to_uuid` never equals a string dict key), then the two emits. -/
def message (st : Registry) (sid : String) (data : Option Payload) : HResult :=
  match data with
  | none => ⟨st, [errEmit sid "to_uuid and text are required"], none⟩
  | some d =>
      if d.isEmpty then ⟨st, [errEmit sid "to_uuid and text are required"], none⟩
      else match plookup d "to_uuid", plookup d "text" with
        | some tv, some xv =>
            match dictGet st.users_by_sid sid with
            | none => ⟨st, [errEmit sid "Call register with your uuid first"], none⟩
            | some fu =>
                if fu = "" then
                  ⟨st, [errEmit sid "Call register with your uuid first"], none⟩
                else
                  match (match tv with
                         | .vstr t => dictGet st.users_by_uuid t
                         | _ => none) with
                  | none =>
                      ⟨st, [errEmit sid ("Peer " ++ pyStr tv ++ " is not online")], none⟩
                  | some tsid =>
                      if tsid = "" then
                        ⟨st, [errEmit sid ("Peer " ++ pyStr tv ++ " is not online")], none⟩
                      else
                        ⟨st, [⟨"message", [("from_uuid", .vstr fu), ("text", xv)], tsid⟩,
                              ⟨"message_sent", [("to_uuid", tv)], sid⟩], none⟩
        | _, _ => ⟨st, [errEmit sid "to_uuid and text are required"], none⟩

/-! ### Event traces and reachability -/

inductive Event where
  | reg (sid : String) (data : Option Payload)
  | msg (sid : String) (data : Option Payload)
  | disc (sid : String)

/-- State transition of one inbound event. -/
def stepState (st : Registry) : Event → Registry
  | .reg sid d => (register st sid d).state
  | .msg sid d => (message st sid d).state
  | .disc sid => disconnect st sid

/-- State after a whole trace, starting from the empty registry. -/
def runEvents (es : List Event) : Registry :=
  es.foldl stepState Registry.empty

/-- A registry state the server can actually be in. -/
def Reachable (st : Registry) : Prop :=
  ∃ es : List Event, runEvents es = st

/-! ### Helper lemmas about the handlers -/

/-- A `register` event whose payload carries a parseable uuid string `u`
updates both dicts with the raw string and acknowledges. -/
theorem register_accept (st : Registry) (sid u : String) (n : Nat) (d : Payload)
    (h : uuidFromString u = some n) (hl : plookup d "uuid" = some (.vstr u)) :
    register st sid (some d) =
      ⟨registryRegister st sid u, [⟨"registered", [("uuid", .vstr u)], sid⟩], none⟩ := by
  have hne : d ≠ [] := by intro h0; rw [h0] at hl; simp [plookup] at hl
  have hE : d.isEmpty = false := by cases d <;> simp_all
  simp [register, hE, hl, pyUUID, h]

/-- A `message` event whose target uuid string is not a key of
`users_by_uuid` reports the peer offline to the sender and changes
nothing. -/
theorem message_offline (st : Registry) (sid : String) (d : Payload)
    (t : String) (xv : PVal) (fu : String)
    (h1 : plookup d "to_uuid" = some (.vstr t)) (h2 : plookup d "text" = some xv)
    (h3 : dictGet st.users_by_sid sid = some fu) (h4 : fu ≠ "")
    (h5 : dictGet st.users_by_uuid t = none) :
    message st sid (some d) =
      ⟨st, [errEmit sid ("Peer " ++ t ++ " is not online")], none⟩ := by
  have hne : d ≠ [] := by intro h0; rw [h0] at h1; simp [plookup] at h1
  have hE : d.isEmpty = false := by cases d <;> simp_all
  simp [message, hE, h1, h2, h3, h4, h5, pyStr]

/-- The uuid string a `register` event stores, when it stores one: payload
present and non-empty, `uuid` key present with a string value the parser
accepts. -/
def acceptedUuid (d : Option Payload) : Option String :=
  match d with
  | none => none
  | some l =>
      if l.isEmpty then none
      else match plookup l "uuid" with
        | some (.vstr u) => if (uuidFromString u).isSome then some u else none
        | _ => none

/-- State effect of the `register` handler, characterised by
`acceptedUuid`. -/
theorem register_state_eq (st : Registry) (sid : String) (d : Option Payload) :
    (register st sid d).state =
      match acceptedUuid d with
      | some u => registryRegister st sid u
      | none => st := by
  cases d with
  | none => rfl
  | some l =>
      cases hE : l.isEmpty with
      | true => simp [register, acceptedUuid, hE]
      | false =>
          cases hv : plookup l "uuid" with
          | none => simp [register, acceptedUuid, hE, hv]
          | some v =>
              cases v with
              | vstr u =>
                  cases hp : uuidFromString u with
                  | none => simp [register, acceptedUuid, hE, hv, pyUUID, hp]
                  | some n => simp [register, acceptedUuid, hE, hv, pyUUID, hp]
              | vnum n => simp [register, acceptedUuid, hE, hv, pyUUID]
              | vbool b => simp [register, acceptedUuid, hE, hv, pyUUID]
              | vnull => simp [register, acceptedUuid, hE, hv, pyUUID]

/-- An accepted uuid string parses, hence is not the empty string. -/
theorem acceptedUuid_ne_empty (d : Option Payload) (u : String)
    (h : acceptedUuid d = some u) : u ≠ "" := by
  rcases d with _ | l
  · simp [acceptedUuid] at h
  · by_cases hE : l.isEmpty
    · simp [acceptedUuid, hE] at h
    · rcases hv : plookup l "uuid" with _ | v
      · simp [acceptedUuid, hE, hv] at h
      · cases v with
        | vstr u2 =>
            rcases hp : uuidFromString u2 with _ | n
            · simp [acceptedUuid, hE, hv, hp] at h
            · simp [acceptedUuid, hE, hv, hp] at h
              subst h
              intro h0
              rw [h0] at hp
              rw [show uuidFromString "" = none from by decide] at hp
              cases hp
        | vnum n => simp [acceptedUuid, hE, hv] at h
        | vbool b => simp [acceptedUuid, hE, hv] at h
        | vnull => simp [acceptedUuid, hE, hv] at h

/-- The `message` handler never changes the registry. -/
theorem message_state_eq (st : Registry) (sid : String) (d : Option Payload) :
    (message st sid d).state = st := by
  unfold message
  repeat' split
  all_goals rfl

/-- The `disconnect` handler always pops the connection key from `users_by_sid`. -/
theorem disconnect_users_by_sid (st : Registry) (sid : String) :
    (disconnect st sid).users_by_sid = dictPop st.users_by_sid sid := by
  unfold disconnect
  rcases h : dictGet st.users_by_sid sid with _ | u <;> simp [h]
  by_cases hu : u = "" <;> simp [hu]

/-- Disconnecting a connection with no binding leaves the state as it
was. -/
theorem disconnect_of_absent (st : Registry) (sid : String)
    (h : dictGet st.users_by_sid sid = none) : disconnect st sid = st := by
  unfold disconnect
  rw [h]
  simp [dictPop_of_absent _ _ h]

/-- Disconnecting a connection bound to a non-empty identity pops both
dicts. -/
theorem disconnect_of_present (st : Registry) (sid u : String)
    (h : dictGet st.users_by_sid sid = some u) (hu : u ≠ "") :
    disconnect st sid =
      ⟨dictPop st.users_by_sid sid, dictPop st.users_by_uuid u⟩ := by
  unfold disconnect
  rw [h]
  simp [hu]

/-- One event step preserves non-emptiness of the stored identity
strings: `register` only stores parser-accepted strings, `message` does
not mutate, `disconnect` only removes. -/
theorem step_sid_vals (st : Registry) (e : Event)
    (hst : ∀ c u, dictGet st.users_by_sid c = some u → u ≠ "") :
    ∀ c u, dictGet (stepState st e).users_by_sid c = some u → u ≠ "" := by
  cases e with
  | reg sid d =>
      intro c u hc
      rw [show stepState st (.reg sid d) = (register st sid d).state from rfl,
          register_state_eq] at hc
      rcases hA : acceptedUuid d with _ | u2
      · rw [hA] at hc; exact hst c u hc
      · rw [hA] at hc
        simp only [registryRegister, dictGet_set] at hc
        by_cases hcs : sid = c
        · rw [if_pos hcs] at hc
          cases hc
          exact acceptedUuid_ne_empty d u hA
        · rw [if_neg hcs] at hc
          exact hst c u hc
  | msg sid d =>
      intro c u hc
      rw [show stepState st (.msg sid d) = (message st sid d).state from rfl,
          message_state_eq] at hc
      exact hst c u hc
  | disc sid =>
      intro c u hc
      rw [show stepState st (.disc sid) = disconnect st sid from rfl] at hc
      rw [disconnect_users_by_sid, dictGet_pop] at hc
      by_cases hcs : c = sid
      · rw [if_pos hcs] at hc; cases hc
      · rw [if_neg hcs] at hc; exact hst c u hc

/-- Every identity value stored in `users_by_sid` of a reachable state was
accepted by the uuid parser, hence is non-empty. -/
theorem runEvents_sid_vals (es : List Event) :
    ∀ c u, dictGet (runEvents es).users_by_sid c = some u → u ≠ "" := by
  suffices h : ∀ st : Registry,
      (∀ c u, dictGet st.users_by_sid c = some u → u ≠ "") →
      ∀ c u, dictGet (es.foldl stepState st).users_by_sid c = some u → u ≠ "" by
    exact h Registry.empty (by intro c u hc; simp [Registry.empty, dictGet] at hc)
  induction es with
  | nil => intro st hst; exact hst
  | cons e rest ih =>
      intro st hst
      exact ih (stepState st e) (step_sid_vals st e hst)

/-! ### Concrete identities used in witnesses -/

/-- A canonical lowercase hyphenated uuid string. -/
def uuidA : String := "12345678-1234-1234-1234-123456789abc"

/-- The same 128-bit value as `uuidA` in a different accepted textual form
(uppercase, no hyphens). -/
def uuidA2 : String := "12345678123412341234123456789ABC"

/-- A second, distinct identity. -/
def uuidB : String := "deadbeef-dead-beef-dead-beefdeadbeef"

/-! ### Claim theorems -/

/-- C1 counterexample: `register` does not remove the displaced bindings.
With `users_by_sid = [c2 -> u1]`, `users_by_uuid = [u1 -> c2]`, after
`register(c1, u1)` the displaced connection `c2` still resolves to `u1`
(the claim says `NotFound`); and with `c1` bound to `u1`, after
`register(c1, u2)` the old identity `u1` still resolves to `c1` (the claim
says `Offline`). -/
theorem C1_counterexample :
    ¬ (lookup_identity_of
        (registryRegister ⟨[("c2", "u1")], [("u1", "c2")]⟩ "c1" "u1") "c2" = none) ∧
    ¬ (lookup_connection_of
        (registryRegister ⟨[("c1", "u1")], [("u1", "c1")]⟩ "c1" "u2") "u1" = none) := by
  decide

/-- C1 (amended): `register(conn, u)` overwrites `users_by_sid[conn]` and
`users_by_uuid[u]` and leaves every other entry of both dicts in place; in
particular a displaced connection still resolves to `u` under
`lookup_identity_of`, and a previously held identity still resolves to
`conn` under `lookup_connection_of` — the old bindings are not removed. -/
theorem C1_register_overwrites_without_cleanup (st : Registry) (conn u : String) :
    lookup_identity_of (registryRegister st conn u) conn = some u ∧
    lookup_connection_of (registryRegister st conn u) u = some conn ∧
    (∀ c2, c2 ≠ conn →
      lookup_identity_of (registryRegister st conn u) c2 = lookup_identity_of st c2) ∧
    (∀ u2, u2 ≠ u →
      lookup_connection_of (registryRegister st conn u) u2 = lookup_connection_of st u2) := by
  refine ⟨?_, ?_, fun c2 h => ?_, fun u2 h => ?_⟩ <;>
    simp [lookup_identity_of, lookup_connection_of, registryRegister, dictGet_set]
  · intro h2; exact absurd h2.symm h
  · intro h2; exact absurd h2.symm h

/-- C1 witness: at a concrete displaced state the stale binding survives. -/
theorem C1_register_overwrites_without_cleanup_witness :
    lookup_identity_of
      (registryRegister ⟨[("c2", "u1")], [("u1", "c2")]⟩ "c1" "u1") "c2" = some "u1" :=
  ((C1_register_overwrites_without_cleanup
      ⟨[("c2", "u1")], [("u1", "c2")]⟩ "c1" "u1").2.2.1 "c2" (by decide)).trans (by decide)

/-- C3: in every registry state, a `register` event that succeeds with
identity `u` leaves `lookup_identity_of conn = u` and
`lookup_connection_of u = conn`. -/
theorem C3_register_installs_bindings (st : Registry) (sid u : String) (n : Nat)
    (h : uuidFromString u = some n) :
    (register st sid (some [("uuid", .vstr u)])).exc = none ∧
    lookup_identity_of (register st sid (some [("uuid", .vstr u)])).state sid = some u ∧
    lookup_connection_of (register st sid (some [("uuid", .vstr u)])).state u = some sid := by
  rw [register_accept st sid u n [("uuid", .vstr u)] h (by simp [plookup])]
  refine ⟨rfl, ?_, ?_⟩ <;>
    simp [lookup_identity_of, lookup_connection_of, registryRegister, dictGet_set]

/-- C3 witness: a concrete successful registration. -/
theorem C3_register_installs_bindings_witness :
    (register Registry.empty "c1" (some [("uuid", .vstr uuidA)])).exc = none ∧
    lookup_identity_of (register Registry.empty "c1" (some [("uuid", .vstr uuidA)])).state
      "c1" = some uuidA ∧
    lookup_connection_of (register Registry.empty "c1" (some [("uuid", .vstr uuidA)])).state
      uuidA = some "c1" :=
  C3_register_installs_bindings Registry.empty "c1" uuidA
    0x12345678123412341234123456789abc (by decide)

/-- C10: in a stale state where `users_by_sid` still maps `A` to `u` while
`users_by_uuid` maps `u` to a different connection `B` (which also holds
`u` in `users_by_sid`), disconnecting `A` pops both `A`'s entry and the
`u -> B` entry, so `B` loses its addressability under `u`, while `B`'s own
`users_by_sid` entry survives. -/
theorem C10_disconnect_strips_current_holder (st : Registry) (A B u : String)
    (hBA : B ≠ A) (hu : u ≠ "")
    (h1 : lookup_identity_of st A = some u)
    (h2 : lookup_connection_of st u = some B)
    (h3 : lookup_identity_of st B = some u) :
    lookup_identity_of (disconnect st A) A = none ∧
    lookup_connection_of (disconnect st A) u = none ∧
    lookup_identity_of (disconnect st A) B = some u := by
  unfold disconnect
  rw [show dictGet st.users_by_sid A = some u from h1]
  simp only [hu, if_false]
  refine ⟨?_, ?_, ?_⟩
  · simp [lookup_identity_of, dictGet_pop]
  · simp [lookup_connection_of, dictGet_pop]
  · simp [lookup_identity_of, dictGet_pop, hBA]
    exact h3

/-- C10 witness: the concrete stale state reached by `register(A, u)` then
`register(B, u)`, then disconnecting `A`. -/
theorem C10_disconnect_strips_current_holder_witness :
    lookup_identity_of (disconnect ⟨[("A", uuidA), ("B", uuidA)], [(uuidA, "B")]⟩ "A")
      "A" = none ∧
    lookup_connection_of (disconnect ⟨[("A", uuidA), ("B", uuidA)], [(uuidA, "B")]⟩ "A")
      uuidA = none ∧
    lookup_identity_of (disconnect ⟨[("A", uuidA), ("B", uuidA)], [(uuidA, "B")]⟩ "A")
      "B" = some uuidA :=
  C10_disconnect_strips_current_holder ⟨[("A", uuidA), ("B", uuidA)], [(uuidA, "B")]⟩
    "A" "B" uuidA (by decide) (by decide) (by decide) (by decide) (by decide)

/-- C6: a `message` event (both payload fields present) from a connection
that holds no registry binding emits exactly one error,
`Call register with your uuid first`, to the sender; nothing is delivered
to any other connection and the registry is unchanged. -/
theorem C6_sender_unregistered (st : Registry) (sid : String) (d : Payload)
    (tv xv : PVal)
    (h1 : plookup d "to_uuid" = some tv) (h2 : plookup d "text" = some xv)
    (h3 : lookup_identity_of st sid = none) :
    message st sid (some d) =
      ⟨st, [errEmit sid "Call register with your uuid first"], none⟩ := by
  have hne : d ≠ [] := by intro h0; rw [h0] at h1; simp [plookup] at h1
  have hE : d.isEmpty = false := by cases d <;> simp_all
  simp [message, hE, h1, h2, show dictGet st.users_by_sid sid = none from h3]

/-- C6 witness: an unregistered sender on the empty registry. -/
theorem C6_sender_unregistered_witness :
    message Registry.empty "c1" (some [("to_uuid", .vstr uuidB), ("text", .vstr "hi")]) =
      ⟨Registry.empty, [errEmit "c1" "Call register with your uuid first"], none⟩ :=
  C6_sender_unregistered Registry.empty "c1"
    [("to_uuid", .vstr uuidB), ("text", .vstr "hi")] (.vstr uuidB) (.vstr "hi")
    (by decide) (by decide) (by decide)

/-- C7: a `message` event from a registered sender to a target identity
with no active registration emits exactly one error,
`Peer <to_uuid> is not online` with the target identity interpolated, to
the sender; nothing is delivered and the registry is unchanged. -/
theorem C7_target_offline (st : Registry) (sid : String) (d : Payload)
    (t : String) (xv : PVal) (fu : String)
    (h1 : plookup d "to_uuid" = some (.vstr t)) (h2 : plookup d "text" = some xv)
    (h3 : lookup_identity_of st sid = some fu) (h4 : fu ≠ "")
    (h5 : lookup_connection_of st t = none) :
    message st sid (some d) =
      ⟨st, [errEmit sid ("Peer " ++ t ++ " is not online")], none⟩ :=
  message_offline st sid d t xv fu h1 h2 h3 h4 h5

/-- C7 witness: a registered sender addressing an absent identity. -/
theorem C7_target_offline_witness :
    message ⟨[("c1", uuidA)], [(uuidA, "c1")]⟩ "c1"
        (some [("to_uuid", .vstr uuidB), ("text", .vstr "hi")]) =
      ⟨⟨[("c1", uuidA)], [(uuidA, "c1")]⟩,
       [errEmit "c1" ("Peer " ++ uuidB ++ " is not online")], none⟩ :=
  C7_target_offline ⟨[("c1", uuidA)], [(uuidA, "c1")]⟩ "c1"
    [("to_uuid", .vstr uuidB), ("text", .vstr "hi")] uuidB (.vstr "hi") uuidA
    (by decide) (by decide) (by decide) (by decide) (by decide)

/-- C8: a `message` event from a sender registered under `fu` to a target
identity resolving to live connection `tsid` emits exactly the payload
`(from_uuid := fu, text := xv)` to the target — the text value passed
through unmodified — followed by the acknowledgement
`message_sent (to_uuid := t)` to the sender; the registry is unchanged. -/
theorem C8_delivery (st : Registry) (sid : String) (d : Payload)
    (t : String) (xv : PVal) (fu tsid : String)
    (h1 : plookup d "to_uuid" = some (.vstr t)) (h2 : plookup d "text" = some xv)
    (h3 : lookup_identity_of st sid = some fu) (h4 : fu ≠ "")
    (h5 : lookup_connection_of st t = some tsid) (h6 : tsid ≠ "") :
    message st sid (some d) =
      ⟨st, [⟨"message", [("from_uuid", .vstr fu), ("text", xv)], tsid⟩,
            ⟨"message_sent", [("to_uuid", .vstr t)], sid⟩], none⟩ := by
  have hne : d ≠ [] := by intro h0; rw [h0] at h1; simp [plookup] at h1
  have hE : d.isEmpty = false := by cases d <;> simp_all
  simp [message, hE, h1, h2, show dictGet st.users_by_sid sid = some fu from h3, h4,
        show dictGet st.users_by_uuid t = some tsid from h5, h6]

/-- C8 witness: the end-to-end delivery scenario with two registered
connections. -/
theorem C8_delivery_witness :
    message ⟨[("c1", uuidA), ("c2", uuidB)], [(uuidA, "c1"), (uuidB, "c2")]⟩ "c1"
        (some [("to_uuid", .vstr uuidB), ("text", .vstr "hi")]) =
      ⟨⟨[("c1", uuidA), ("c2", uuidB)], [(uuidA, "c1"), (uuidB, "c2")]⟩,
       [⟨"message", [("from_uuid", .vstr uuidA), ("text", .vstr "hi")], "c2"⟩,
        ⟨"message_sent", [("to_uuid", .vstr uuidB)], "c1"⟩], none⟩ :=
  C8_delivery ⟨[("c1", uuidA), ("c2", uuidB)], [(uuidA, "c1"), (uuidB, "c2")]⟩ "c1"
    [("to_uuid", .vstr uuidB), ("text", .vstr "hi")] uuidB (.vstr "hi") uuidA "c2"
    (by decide) (by decide) (by decide) (by decide) (by decide) (by decide)

/-- C4: in any reachable registry state, the `disconnect` handler on a
connection that holds no binding is a no-op (the state, hence both lookup
directions, is unchanged and nothing is raised — the handler is total);
on a registered connection it deletes the binding in both directions. -/
theorem C4_remove_idempotent (st : Registry) (conn : String) (hr : Reachable st) :
    (lookup_identity_of st conn = none → disconnect st conn = st) ∧
    (∀ u, lookup_identity_of st conn = some u →
      lookup_identity_of (disconnect st conn) conn = none ∧
      lookup_connection_of (disconnect st conn) u = none) := by
  constructor
  · intro h
    unfold disconnect
    rw [show dictGet st.users_by_sid conn = none from h]
    simp [dictPop_of_absent _ _ h]
  · intro u hu
    have hu2 : u ≠ "" := by
      obtain ⟨es, rfl⟩ := hr
      exact runEvents_sid_vals es conn u hu
    unfold disconnect
    rw [show dictGet st.users_by_sid conn = some u from hu]
    simp only [hu2, if_false]
    constructor <;> simp [lookup_identity_of, lookup_connection_of, dictGet_pop]

/-- C4 witness: on the state reached by one registration, disconnecting an
unknown connection is a no-op and disconnecting the registered one clears
both directions. -/
theorem C4_remove_idempotent_witness :
    disconnect (runEvents [.reg "c1" (some [("uuid", .vstr uuidA)])]) "zzz" =
      runEvents [.reg "c1" (some [("uuid", .vstr uuidA)])] ∧
    (lookup_identity_of
        (disconnect (runEvents [.reg "c1" (some [("uuid", .vstr uuidA)])]) "c1") "c1" = none ∧
     lookup_connection_of
        (disconnect (runEvents [.reg "c1" (some [("uuid", .vstr uuidA)])]) "c1") uuidA = none) :=
  ⟨(C4_remove_idempotent (runEvents [.reg "c1" (some [("uuid", .vstr uuidA)])]) "zzz"
      ⟨[.reg "c1" (some [("uuid", .vstr uuidA)])], rfl⟩).1 (by decide),
   (C4_remove_idempotent (runEvents [.reg "c1" (some [("uuid", .vstr uuidA)])]) "c1"
      ⟨[.reg "c1" (some [("uuid", .vstr uuidA)])], rfl⟩).2 uuidA (by decide)⟩

/-- C9: identity matching is exact raw-string equality, not UUID-value
equality.  If `u` and `v` are two different accepted textual forms of the
same 128-bit value and `v` is not a key of `users_by_uuid`, then after
`register(sid, u)` the registry resolves `u` to `sid` but still does not
resolve `v`, and a registered sender addressing `v` gets the
`Peer <v> is not online` error instead of a delivery. -/
theorem C9_exact_string_matching (st : Registry) (sid sid2 : String)
    (u v : String) (n : Nat)
    (hu : uuidFromString u = some n) (hv : uuidFromString v = some n) (hne : v ≠ u)
    (hvab : lookup_connection_of st v = none) :
    lookup_connection_of (register st sid (some [("uuid", .vstr u)])).state u = some sid ∧
    lookup_connection_of (register st sid (some [("uuid", .vstr u)])).state v = none ∧
    (∀ d xv fu, plookup d "to_uuid" = some (.vstr v) → plookup d "text" = some xv →
      lookup_identity_of (register st sid (some [("uuid", .vstr u)])).state sid2 = some fu →
      fu ≠ "" →
      message (register st sid (some [("uuid", .vstr u)])).state sid2 (some d) =
        ⟨(register st sid (some [("uuid", .vstr u)])).state,
         [errEmit sid2 ("Peer " ++ v ++ " is not online")], none⟩) := by
  rw [register_accept st sid u n _ hu (by simp [plookup])]
  have hv2 : dictGet (registryRegister st sid u).users_by_uuid v = none := by
    simp only [registryRegister, dictGet_set]
    rw [if_neg (Ne.symm hne)]
    exact hvab
  refine ⟨?_, ?_, ?_⟩
  · simp [lookup_connection_of, registryRegister, dictGet_set]
  · exact hv2
  · intro d xv fu h1 h2 h3 h4
    exact message_offline _ sid2 d v xv fu h1 h2 h3 h4 hv2

/-- C9 witness: `c1` registered under `uuidB` addresses the peer that
registered the hyphenated lowercase `uuidA` by the equivalent hyphen-free
uppercase form `uuidA2`, and gets the offline error. -/
theorem C9_exact_string_matching_witness :
    message (register ⟨[("c1", uuidB)], [(uuidB, "c1")]⟩ "c2"
        (some [("uuid", .vstr uuidA)])).state "c1"
        (some [("to_uuid", .vstr uuidA2), ("text", .vstr "hi")]) =
      ⟨(register ⟨[("c1", uuidB)], [(uuidB, "c1")]⟩ "c2"
          (some [("uuid", .vstr uuidA)])).state,
       [errEmit "c1" ("Peer " ++ uuidA2 ++ " is not online")], none⟩ :=
  (C9_exact_string_matching ⟨[("c1", uuidB)], [(uuidB, "c1")]⟩ "c2" "c1" uuidA uuidA2
      0x12345678123412341234123456789abc
      (by decide) (by decide) (by decide) (by decide)).2.2
    [("to_uuid", .vstr uuidA2), ("text", .vstr "hi")] (.vstr "hi") uuidB
    (by decide) (by decide) (by decide) (by decide)

/-- C5: the code, evaluated at the failing input — a `register` event with
payload `(uuid := 5)`.  The parser raises AttributeError, which the
handler's `except (ValueError, TypeError)` does not catch: the exception
escapes the handler, no acknowledgement at all is emitted (in particular
not the `Invalid uuid` error the claim requires), and the registry is
unchanged. -/
theorem C5_nonstring_uuid_uncaught :
    register Registry.empty "c1" (some [("uuid", .vnum 5)]) =
      ⟨Registry.empty, [], some .attributeError⟩ ∧
    (register Registry.empty "c1" (some [("uuid", .vnum 5)])).emits ≠
      [errEmit "c1" "Invalid uuid"] := by
  decide

/-! ### Mutual consistency of the two dicts -/

/-- The two lookup directions agree: `users_by_sid` maps `c` to `u` iff
`users_by_uuid` maps `u` to `c` (the bijection property of the claimed
invariant). -/
def Consistent (st : Registry) : Prop :=
  ∀ c u, lookup_identity_of st c = some u ↔ lookup_connection_of st u = some c

/-- A register step preserves consistency when it does not displace: both
keys fresh, or an exact re-registration of the same pair. -/
theorem consistent_register (st : Registry) (sid u : String)
    (hb : Consistent st)
    (hok : (lookup_identity_of st sid = none ∧ lookup_connection_of st u = none) ∨
           (lookup_identity_of st sid = some u ∧ lookup_connection_of st u = some sid)) :
    Consistent (registryRegister st sid u) := by
  intro c w
  simp only [Consistent, lookup_identity_of, lookup_connection_of] at hb hok ⊢
  simp only [registryRegister, dictGet_set]
  by_cases hc : sid = c <;> by_cases hw : u = w
  · rw [if_pos hc, if_pos hw, hc, hw]
    simp
  · rw [if_pos hc, if_neg hw]
    constructor
    · intro h2; cases h2; exact absurd rfl hw
    · intro h2
      rw [← hc] at h2
      have h3 := (hb sid w).mpr h2
      rcases hok with ⟨h1, _⟩ | ⟨h1, _⟩
      · rw [h1] at h3; cases h3
      · rw [h1] at h3; cases h3; exact absurd rfl hw
  · rw [if_neg hc, if_pos hw, ← hw]
    constructor
    · intro h2
      have h3 := (hb c u).mp h2
      rcases hok with ⟨_, h1⟩ | ⟨_, h1⟩
      · rw [h1] at h3; cases h3
      · rw [h1] at h3; cases h3; exact absurd rfl hc
    · intro h2; cases h2; exact absurd rfl hc
  · rw [if_neg hc, if_neg hw]
    exact hb c w

/-- A disconnect step preserves consistency (given that stored identities
are non-empty, so the truthiness guard does not fire). -/
theorem consistent_disconnect (st : Registry) (sid : String)
    (hb : Consistent st)
    (hne : ∀ c u, dictGet st.users_by_sid c = some u → u ≠ "") :
    Consistent (disconnect st sid) := by
  rcases h : dictGet st.users_by_sid sid with _ | u0
  · rw [disconnect_of_absent st sid h]; exact hb
  · have hu0 : u0 ≠ "" := hne sid u0 h
    rw [disconnect_of_present st sid u0 h hu0]
    intro c w
    simp only [Consistent, lookup_identity_of, lookup_connection_of] at hb ⊢
    simp only [dictGet_pop]
    by_cases hc : c = sid <;> by_cases hw : w = u0
    · rw [if_pos hc, if_pos hw]
      simp
    · rw [if_pos hc, if_neg hw]
      constructor
      · intro h2; cases h2
      · intro h2
        rw [hc] at h2
        have h3 := (hb sid w).mpr h2
        rw [h] at h3
        cases h3
        exact absurd rfl hw
    · rw [if_neg hc, if_pos hw]
      constructor
      · intro h2
        rw [hw] at h2
        have h3 := (hb c u0).mp h2
        have h4 := (hb sid u0).mp h
        rw [h4] at h3
        cases h3
        exact absurd rfl hc
      · intro h2; cases h2
    · rw [if_neg hc, if_neg hw]
      exact hb c w

/-- Guard on one event: a register event may only store a uuid when both
the connection and the identity are unbound, or when it re-registers the
identical pair; message and disconnect events are unrestricted. -/
def eventOk (st : Registry) : Event → Bool
  | .reg sid d =>
      match acceptedUuid d with
      | none => true
      | some u =>
          (decide (lookup_identity_of st sid = none) &&
             decide (lookup_connection_of st u = none)) ||
          (decide (lookup_identity_of st sid = some u) &&
             decide (lookup_connection_of st u = some sid))
  | _ => true

/-- A trace from `st` every register event of which satisfies `eventOk` at
the state it runs in. -/
inductive OkFrom : Registry → List Event → Prop
  | nil (st : Registry) : OkFrom st []
  | cons (st : Registry) (e : Event) (es : List Event) :
      eventOk st e = true → OkFrom (stepState st e) es → OkFrom st (e :: es)

theorem okFrom_consistent (es : List Event) :
    ∀ st, Consistent st → (∀ c u, dictGet st.users_by_sid c = some u → u ≠ "") →
      OkFrom st es → Consistent (es.foldl stepState st) := by
  induction es with
  | nil => intro st hc _ _; exact hc
  | cons e rest ih =>
      intro st hc hv hok
      cases hok with
      | cons _ _ _ he htail =>
          refine ih (stepState st e) ?_ (step_sid_vals st e hv) htail
          cases e with
          | reg sid d =>
              rw [show stepState st (.reg sid d) = (register st sid d).state from rfl,
                  register_state_eq]
              rcases hA : acceptedUuid d with _ | u
              · exact hc
              · simp only [eventOk, hA, Bool.or_eq_true, Bool.and_eq_true,
                  decide_eq_true_eq] at he
                exact consistent_register st sid u hc he
          | msg sid d =>
              rw [show stepState st (.msg sid d) = (message st sid d).state from rfl,
                  message_state_eq]
              exact hc
          | disc sid =>
              exact consistent_disconnect st sid hc hv

/-- C2 counterexample: the mutual-consistency (bijection) invariant fails
on a reachable state.  After `register(c1, uuidA)` then
`register(c2, uuidA)`, `users_by_sid` still maps `c1` to `uuidA` while
`users_by_uuid` maps `uuidA` to `c2`. -/
theorem C2_counterexample :
    ¬ (∀ st : Registry, Reachable st →
        ∀ c u, lookup_identity_of st c = some u ↔
               lookup_connection_of st u = some c) := by
  intro h
  have h2 := (h (runEvents [.reg "c1" (some [("uuid", .vstr uuidA)]),
                            .reg "c2" (some [("uuid", .vstr uuidA)])])
      ⟨_, rfl⟩ "c1" uuidA).mp (by decide)
  rw [show lookup_connection_of
        (runEvents [.reg "c1" (some [("uuid", .vstr uuidA)]),
                    .reg "c2" (some [("uuid", .vstr uuidA)])]) uuidA = some "c2"
      from by decide] at h2
  exact absurd h2 (by decide)

/-- C2 (amended): the registry is a bijection over its currently-registered
subset — each direction maps a key to at most one value and the two
directions are mutually consistent — in every state reachable by a
displacement-free trace: registers that bind a fresh connection to a fresh
identity, or re-register an identical existing pair, with message and
disconnect events unrestricted.  A displacing register breaks mutual
consistency (see the counterexample). -/
theorem C2_consistent_without_displacement (es : List Event)
    (h : OkFrom Registry.empty es) :
    ∀ c u, lookup_identity_of (runEvents es) c = some u ↔
           lookup_connection_of (runEvents es) u = some c :=
  okFrom_consistent es Registry.empty
    (by intro c u
        simp [lookup_identity_of, lookup_connection_of, Registry.empty, dictGet])
    (by intro c u hc; simp [Registry.empty, dictGet] at hc) h

/-- C2 witness: a concrete displacement-free trace — two distinct
registrations then a disconnect — instantiated at the surviving pair. -/
theorem C2_consistent_without_displacement_witness :
    lookup_identity_of
        (runEvents [.reg "c1" (some [("uuid", .vstr uuidA)]),
                    .reg "c2" (some [("uuid", .vstr uuidB)]), .disc "c1"]) "c2" =
      some uuidB ↔
    lookup_connection_of
        (runEvents [.reg "c1" (some [("uuid", .vstr uuidA)]),
                    .reg "c2" (some [("uuid", .vstr uuidB)]), .disc "c1"]) uuidB =
      some "c2" :=
  C2_consistent_without_displacement
    [.reg "c1" (some [("uuid", .vstr uuidA)]),
     .reg "c2" (some [("uuid", .vstr uuidB)]), .disc "c1"]
    (OkFrom.cons _ _ _ (by decide)
      (OkFrom.cons _ _ _ (by decide)
        (OkFrom.cons _ _ _ (by decide) (OkFrom.nil _)))) "c2" uuidB

end RealtimeChat
